import Mathlib

/-!
Shallow embedding of the web-locks engine (src/web-locks.js).

Each definition mirrors one function of the source file:
* `Lock` state is `LockState` (fields `name`, `mode`, `queue`, `owner`,
  `trying`, and the current value `flag` of the `Int32Array` view over the
  lock's `SharedArrayBuffer`, identified by `bufferId`).
* `enter`, `tryEnter`, `leave`, `tryDirect` model the synchronous portion of
  the methods of class `Lock`; asynchronous handler completion (the
  `.then`/`.catch` continuations) is the separate step `handlerSettled`, and
  the abort-listener registered by `enter` is the separate step `fireAbort`.
* `LockManagerSnapshot`, `query`, `receive`, `request` model the
  `LockManager` layer; the collection (a JS `Map`) is an insertion-ordered
  association list with `mapGet`/`mapSet` giving `Map.get`/`Map.set`
  semantics.
* Observable effects (settlements of task promises, broadcast messages,
  handler invocations, thrown exceptions) are recorded as `Event`s.
-/

namespace WebLocks

/-- `const LOCKED = 0` (src line 8). -/
def LOCKED : Nat := 0

/-- `const UNLOCKED = 1` (src line 9). -/
def UNLOCKED : Nat := 1

/-- An `AbortSignal`: its `aborted` flag and (stringified) `reason` field. -/
structure Signal where
  aborted : Bool
  reason : String
  deriving DecidableEq, Repr

/-- A queued lock task (src lines 29-36): the handler is identified by a
numeric id (handlers themselves are opaque to the engine until invoked);
`signal` is the task's `AbortSignal` or `none` for JS `null`/`undefined`;
`rejected` and `entered` are the task's mutable guard flags. -/
structure Task where
  handlerId : Nat
  signal : Option Signal
  rejected : Bool
  entered : Bool
  deriving DecidableEq, Repr

/-- Observable effects of a step of the engine. -/
inductive Event where
  /-- `handler(this)` was invoked with the real lock reference. -/
  | handlerStarted (id : Nat)
  /-- a task's `reject` was called with an abort error carrying `msg`. -/
  | settledCancel (id : Nat) (msg : String)
  /-- a task's `resolve` was called with the handler's result. -/
  | resolved (id : Nat) (v : Nat)
  /-- a task's `reject` was called with the handler's thrown error. -/
  | rejectedWith (id : Nat) (msg : String)
  /-- `locks.send` of a `create` message (src line 166). -/
  | createMsg (name mode : String) (buffer : Nat)
  /-- `locks.send` of a `leave` message (src lines 86-87). -/
  | leaveMsg (name : String)
  /-- a synchronous exception escaped the engine. -/
  | thrown (msg : String)
  deriving DecidableEq, Repr

/-- The per-context state of one `Lock` object (src lines 15-25).
`flag` holds the current value of the shared cell `this.flag[0]`;
`bufferId` identifies which `SharedArrayBuffer` the cell lives in. -/
structure LockState where
  name : String
  mode : String
  bufferId : Nat
  queue : List Task
  owner : Bool
  trying : Bool
  flag : Nat
  deriving DecidableEq, Repr

/-- `new Lock(name, mode, buffer)` (src lines 16-25): with `buffer = null` a
fresh `SharedArrayBuffer` (identified by `freshId`) is allocated and
`Atomics.store(flag, 0, UNLOCKED)` is performed; with a provided buffer the
existing shared cell is aliased without being written, so the view reads the
cell's current value `cellVal`. -/
def newLock (name mode : String) (buffer : Option Nat) (freshId cellVal : Nat) :
    LockState :=
  match buffer with
  | none => ⟨name, mode, freshId, [], false, false, UNLOCKED⟩
  | some b => ⟨name, mode, b, [], false, false, cellVal⟩

/-- `Lock.prototype.tryEnter` (src lines 55-80), structurally recursive on
the queue.  The call `this.leave()` in the already-aborted branch (src line
65) runs with `owner = true`, so it is inlined here as: store `UNLOCKED`,
clear `owner`, send the `leave` broadcast, and recurse (`tryEnter` on the
remaining queue) — exactly the body of `leave` (src lines 82-89); the
pending `reject` of the aborted task (src line 67) then fires after that
recursion returns, which the event order records.  A task whose `signal` is
JS `null` makes `signal.aborted` (src line 64) throw a `TypeError`, which
escapes `tryEnter` after the mutations of src lines 59-62 have happened. -/
def tryEnterGo (name mode : String) (bufferId : Nat) (owner trying : Bool)
    (flag : Nat) : List Task → LockState × List Event
  | [] => (⟨name, mode, bufferId, [], owner, trying, flag⟩, [])
  | t :: rest =>
    if flag = LOCKED then
      (⟨name, mode, bufferId, t :: rest, owner, trying, LOCKED⟩, [])
    else
      match t.signal with
      | none =>
        (⟨name, mode, bufferId, rest, true, false, LOCKED⟩,
         [Event.thrown "TypeError: Cannot read properties of null"])
      | some sig =>
        if sig.aborted then
          let r := tryEnterGo name mode bufferId false false UNLOCKED rest
          (r.1, Event.leaveMsg name :: r.2 ++
            (if t.rejected then []
             else [Event.settledCancel t.handlerId ("AbortError: " ++ sig.reason)]))
        else
          (⟨name, mode, bufferId, rest, true, false, LOCKED⟩,
           [Event.handlerStarted t.handlerId])

/-- `this.tryEnter()` on a lock state. -/
def tryEnter (l : LockState) : LockState × List Event :=
  tryEnterGo l.name l.mode l.bufferId l.owner l.trying l.flag l.queue

/-- `Lock.prototype.leave` (src lines 82-89): no-op unless `owner`;
otherwise store `UNLOCKED`, clear `owner`, broadcast `leave`, then
`tryEnter()`. -/
def leave (l : LockState) : LockState × List Event :=
  if l.owner = false then (l, [])
  else
    let r := tryEnter { l with flag := UNLOCKED, owner := false }
    (r.1, Event.leaveMsg l.name :: r.2)

/-- The `.then`/`.catch` continuation installed on the handler's promise by
`tryEnter` (src lines 71-79) and `tryDirect` (src lines 99-107): when the
handler of the entered task `id` finishes, `this.leave()` runs first, then
the task settles with the handler's result or its thrown error verbatim. -/
def handlerSettled (l : LockState) (id : Nat) (outcome : Except String Nat) :
    LockState × List Event :=
  let r := leave l
  match outcome with
  | Except.ok v => (r.1, r.2 ++ [Event.resolved id v])
  | Except.error e => (r.1, r.2 ++ [Event.rejectedWith id e])

/-- `Lock.prototype.enter` (src lines 27-53), synchronous portion: push the
new task, set `trying`, then register the abort listener — which, for a JS
`null` signal, throws `TypeError` out of the promise executor (rejecting the
returned promise) with the task already pushed; the deferred
`setTimeout(() => this.tryEnter(), 0)` is a separate later step. -/
def enter (l : LockState) (handlerId : Nat) (signal : Option Signal) :
    LockState × Except String Unit :=
  let task : Task := ⟨handlerId, signal, false, false⟩
  let l1 := { l with queue := l.queue ++ [task], trying := true }
  match signal with
  | none => (l1, Except.error "TypeError: Cannot read properties of null")
  | some _ => (l1, Except.ok ())

/-- Firing of the abort listener registered by `enter` (src lines 39-48) for
the task at queue position `i`: the `AbortSignal`'s own internal listener
(src lines 243-245) has already set `signal.aborted = true`; then, unless
the task has `entered`, it is marked `rejected` and its promise is rejected
with the abort error.  The task is not removed from the queue. -/
def fireAbort (l : LockState) (i : Nat) : LockState × List Event :=
  match l.queue.get? i with
  | none => (l, [])
  | some t =>
    match t.signal with
    | none => (l, [])
    | some sig =>
      let sigA : Signal := { sig with aborted := true }
      if t.entered then
        ({ l with queue := l.queue.set i { t with signal := some sigA } }, [])
      else
        ({ l with queue :=
             l.queue.set i { t with signal := some sigA, rejected := true } },
         [Event.settledCancel t.handlerId ("AbortError: " ++ sig.reason)])

/-- Argument a `tryDirect` handler invocation receives: JS `null` or the
real lock reference (`this`). -/
inductive DirectArg where
  | nullRef
  | lockRef
  deriving DecidableEq, Repr

/-- `Lock.prototype.tryDirect` (src lines 91-109), synchronous portion,
recording every handler invocation in order.  The source has no early
returns: when the queue is non-empty `handler(null)` runs (src line 94) and
control falls through; after the exchange, if the previous value was
`LOCKED`, `handler(null)` runs again (src line 97) and control still falls
through; then unconditionally `this.owner = true` and `handler(this)` runs
(src lines 98-99). -/
def tryDirect (l : LockState) : LockState × List DirectArg :=
  let first := if l.queue.length ≠ 0 then [DirectArg.nullRef] else []
  let prev := l.flag
  let second := if prev = LOCKED then [DirectArg.nullRef] else []
  ({ l with flag := LOCKED, owner := true }, first ++ second ++ [DirectArg.lockRef])

/-- The `LockManager` collection: a JS `Map` from lock names to locks,
kept in insertion order. -/
abbrev Collection := List (String × LockState)

/-- `Map.prototype.get`. -/
def mapGet : Collection → String → Option LockState
  | [], _ => none
  | (k, v) :: rest, name => if k = name then some v else mapGet rest name

/-- `Map.prototype.set`: replaces in place, preserving insertion order, or
appends a new entry. -/
def mapSet : Collection → String → LockState → Collection
  | [], name, l => [(name, l)]
  | (k, v) :: rest, name, l =>
    if k = name then (name, l) :: rest else (k, v) :: mapSet rest name l

/-- The object built by `new LockManagerSnapshot(resources)`. -/
structure Snapshot where
  held : List LockState
  pending : List Task
  deriving DecidableEq, Repr

/-- `LockManagerSnapshot` constructor (src lines 112-128): for each lock of
`resources` in order, its queued tasks join `pending` (the
`queue.length > 0` guard before `pending.push(...lock.queue)` does not
change the result) and the lock joins `held` when its `owner` is true.
Iterating a JS `undefined` (`resources = none`) throws `TypeError`. -/
def lockManagerSnapshot (resources : Option (List LockState)) :
    Except String Snapshot :=
  match resources with
  | none => Except.error "TypeError: resources is not iterable"
  | some rs =>
    Except.ok ⟨rs.filter (fun l => l.owner), (rs.map (fun l => l.queue)).flatten⟩

/-- `LockManager.prototype.query` (src lines 187-190): it constructs
`new LockManagerSnapshot()` with NO argument — the collection is never
passed — so the constructor's `for..of` over `undefined` throws. -/
def query (_col : Collection) : Except String Snapshot :=
  lockManagerSnapshot none

/-- A broadcast message `{ webLocks, kind, name, mode, buffer }`. -/
structure Message where
  webLocks : Bool
  kind : String
  name : String
  mode : String
  buffer : Nat
  deriving DecidableEq, Repr

/-- The `kind === 'leave'` branch of `receive` (src lines 222-228): for every
lock of the collection, in order, whose `name` matches and whose `trying`
flag is set, call `lock.tryEnter()`. -/
def receiveLeave : Collection → String → Collection × List Event
  | [], _ => ([], [])
  | (k, l) :: rest, name =>
    let r := if l.name = name ∧ l.trying = true then tryEnter l else (l, [])
    let rr := receiveLeave rest name
    ((k, r.1) :: rr.1, r.2 ++ rr.2)

/-- `LockManager.prototype.receive` (src lines 214-229).  On `create` it
unconditionally constructs `new Lock(name, mode, buffer)` — aliasing the
message's shared buffer, whose cell currently holds `cellVal` — and
`set`s it into the collection, replacing any existing entry. -/
def receive (col : Collection) (msg : Message) (cellVal : Nat) :
    Collection × List Event :=
  if msg.webLocks = false then (col, [])
  else if msg.kind = "create" then
    (mapSet col msg.name (newLock msg.name msg.mode (some msg.buffer) 0 cellVal), [])
  else if msg.kind = "leave" then receiveLeave col msg.name
  else (col, [])

/-- The destructured `options` of `LockManager.prototype.request`
(src lines 146-151), with the source's defaults. -/
structure ReqOptions where
  mode : String := "exclusive"
  signal : Option Signal := none
  ifAvailable : Bool := false
  steal : Bool := false
  deriving Repr

/-- How a `request` call that passed validation proceeds: the default path
enqueues a task via `enter` and awaits it; the `ifAvailable` path runs
`tryDirect`, whose handler invocations are recorded. -/
inductive ReqOutcome where
  | enqueued
  | direct (calls : List DirectArg)
  deriving DecidableEq, Repr

/-- `await func[type]()` dispatch of `request` (src lines 174-182): the
chosen lock is either entered (default call) or tried directly, and the
mutated lock is visible through the collection (JS mutates it in place). -/
def enterOrDirect (col : Collection) (evs : List Event) (name : String)
    (lock : LockState) (opts : ReqOptions) (handlerId : Nat) :
    Collection × List Event × Except String ReqOutcome :=
  if opts.ifAvailable = true then
    let r := tryDirect lock
    (mapSet col name r.1, evs, Except.ok (ReqOutcome.direct r.2))
  else
    let r := enter lock handlerId opts.signal
    match r.2 with
    | Except.error e => (mapSet col name r.1, evs, Except.error e)
    | Except.ok _ => (mapSet col name r.1, evs, Except.ok ReqOutcome.enqueued)

/-- The already-aborted-signal check of `request` (src lines 170-172),
performed after the lock was resolved (and possibly created and its
creation broadcast), before any task is enqueued. -/
def requestDispatch (col : Collection) (evs : List Event) (name : String)
    (lock : LockState) (opts : ReqOptions) (handlerId : Nat) :
    Collection × List Event × Except String ReqOutcome :=
  match opts.signal with
  | some sig =>
    if sig.aborted = true then
      (col, evs, Except.error ("AbortError: " ++ sig.reason))
    else enterOrDirect col evs name lock opts handlerId
  | none => enterOrDirect col evs name lock opts handlerId

/-- `LockManager.prototype.request` (src lines 141-185).  `freshBuf`
identifies the fresh `SharedArrayBuffer` a newly constructed lock would
allocate.  The result is the updated collection, the broadcast messages
sent, and the request's outcome (`Except.error e` meaning the async
function's promise rejects with `e`). -/
def request (col : Collection) (freshBuf : Nat) (name : String)
    (opts : ReqOptions) (handlerId : Nat) :
    Collection × List Event × Except String ReqOutcome :=
  if name.toList.head? = some '-' then (col, [], Except.error "NotSupportedError")
  else if opts.steal = true && opts.ifAvailable = true then
    (col, [], Except.error "NotSupportedError")
  else if opts.steal = true && opts.mode ≠ "exclusive" then
    (col, [], Except.error "NotSupportedError")
  else if opts.signal.isSome && (opts.steal = true || opts.ifAvailable = true) then
    (col, [], Except.error "NotSupportedError")
  else
    match mapGet col name with
    | none =>
      let lock := newLock name opts.mode none freshBuf 0
      requestDispatch (mapSet col name lock)
        [Event.createMsg name opts.mode freshBuf] name lock opts handlerId
    | some lock =>
      if lock.mode ≠ opts.mode then
        (col, [], Except.error "The mode can`t be changed")
      else requestDispatch col [] name lock opts handlerId

/-- The context-local part of one `Lock` bound to a shared flag: everything
of `LockState` except the shared cell's value. -/
structure Ctx where
  queue : List Task
  owner : Bool
  trying : Bool
  deriving DecidableEq, Repr

/-- Two execution contexts whose locks for the name `"x"` alias the same
shared flag cell (distributed via the `create` broadcast). -/
structure Sys where
  flag : Nat
  ctxA : Ctx
  ctxB : Ctx
  deriving DecidableEq, Repr

/-- A context's view of the shared lock: its local fields plus the shared
cell's current value. -/
def lockOf (flag : Nat) (c : Ctx) : LockState :=
  ⟨"x", "exclusive", 0, c.queue, c.owner, c.trying, flag⟩

/-- Project a lock state back to a context's local fields. -/
def ctxOf (l : LockState) : Ctx := ⟨l.queue, l.owner, l.trying⟩

/-- Context A runs `tryEnter` on its lock; its write to the shared cell is
visible system-wide. -/
def sysTryEnterA (s : Sys) : Sys × List Event :=
  let r := tryEnter (lockOf s.flag s.ctxA)
  (⟨r.1.flag, ctxOf r.1, s.ctxB⟩, r.2)

/-- Context B runs `tryDirect` on its lock; its write to the shared cell is
visible system-wide. -/
def sysTryDirectB (s : Sys) : Sys × List DirectArg :=
  let r := tryDirect (lockOf s.flag s.ctxB)
  (⟨r.1.flag, s.ctxA, ctxOf r.1⟩, r.2)

/-- The settle-with-cancellation events for task `id` among `evs`. -/
def cancelEventsFor (id : Nat) (evs : List Event) : List Event :=
  evs.filter fun e => match e with
    | Event.settledCancel i _ => i == id
    | _ => false

/-- The handler-invocation events for task `id` among `evs`. -/
def startEventsFor (id : Nat) (evs : List Event) : List Event :=
  evs.filter fun e => match e with
    | Event.handlerStarted i => i == id
    | _ => false

/-- A signal that has not yet fired. -/
def sigIdle : Signal := ⟨false, "r"⟩

/-- A signal that has already fired. -/
def sigFired : Signal := ⟨true, "r"⟩

/-- A pending task with a live signal. -/
def taskIdle : Task := ⟨1, some sigIdle, false, false⟩

/-- A pending task whose signal has already fired. -/
def taskFired : Task := ⟨1, some sigFired, false, false⟩

/-- A second pending task with a live signal. -/
def taskNext : Task := ⟨2, some sigIdle, false, false⟩

/-- A freshly created, free lock. -/
def lockFree : LockState := ⟨"x", "exclusive", 0, [], false, false, UNLOCKED⟩

/-- A lock currently held by this context. -/
def lockHeld : LockState := ⟨"x", "exclusive", 0, [], true, false, LOCKED⟩

/-- A free lock with one queued waiter. -/
def lockQueued : LockState := ⟨"y", "exclusive", 1, [taskIdle], false, true, UNLOCKED⟩

/-- A held lock with a queued waiter (its shared cell is `LOCKED`). -/
def lockBusyA : LockState := ⟨"a", "exclusive", 5, [taskIdle], true, true, LOCKED⟩

/-- A `create` broadcast naming `lockBusyA`'s name and buffer. -/
def msgCreateA : Message := ⟨true, "create", "a", "exclusive", 5⟩

/-- A held-elsewhere lock (cell `LOCKED`) with one queued waiter. -/
def lockQueuedPending : LockState :=
  ⟨"x", "exclusive", 0, [taskIdle], false, true, LOCKED⟩

/-- A free lock whose head waiter's signal has already fired, with one more
waiter behind it. -/
def lockAbortedHead : LockState :=
  ⟨"x", "exclusive", 0, [taskFired, taskNext], false, true, UNLOCKED⟩

/-- Initial two-context system: context A has one queued waiter, context B
none; the shared cell is `UNLOCKED`. -/
def sys0 : Sys := ⟨UNLOCKED, ⟨[taskIdle], false, true⟩, ⟨[], false, false⟩⟩

/-- Request options asking for `shared` mode, no signal. -/
def optsShared : ReqOptions := ⟨"shared", none, false, false⟩

/-- Default-shaped request options with a live signal. -/
def optsLive : ReqOptions := ⟨"exclusive", some sigIdle, false, false⟩

/-- Default-shaped request options with an already-fired signal. -/
def optsAborted : ReqOptions := ⟨"exclusive", some sigFired, false, false⟩

/-- C1.  The claim says every `tryDirect(handler)` call invokes the handler
exactly once.  The code has no early returns (src lines 91-109): with a
non-empty queue and a `LOCKED` flag the handler is invoked three times
(`null`, `null`, then the real lock); with only one of the two conditions,
twice; only on an empty queue with an `UNLOCKED` flag is it invoked once.
This is the double-invocation hazard the spec's §9 itself labels a bug. -/
theorem c1_tryDirect_handler_not_once :
    (tryDirect ⟨"x", "exclusive", 0, [taskIdle], false, true, LOCKED⟩).2 =
      [DirectArg.nullRef, DirectArg.nullRef, DirectArg.lockRef] ∧
    (tryDirect ⟨"x", "exclusive", 0, [], false, false, LOCKED⟩).2 =
      [DirectArg.nullRef, DirectArg.lockRef] ∧
    (tryDirect ⟨"x", "exclusive", 0, [taskIdle], false, true, UNLOCKED⟩).2 =
      [DirectArg.nullRef, DirectArg.lockRef] ∧
    (tryDirect lockFree).2 = [DirectArg.lockRef] := by
  refine ⟨rfl, rfl, rfl, rfl⟩

/-- C2.  The claim says `query()` returns a snapshot of the collection
(held = locks with `owner`, pending = all queued tasks) and never fails.
The code constructs `new LockManagerSnapshot()` with no argument (src line
188), so the constructor's `for..of` over `undefined` resources throws a
`TypeError` on every call; the constructor itself, when actually given
resources, does produce exactly the claimed snapshot (second conjunct). -/
theorem c2_query_throws :
    query [("x", lockHeld), ("y", lockQueued)] =
      Except.error "TypeError: resources is not iterable" ∧
    lockManagerSnapshot (some [lockHeld, lockQueued]) =
      Except.ok ⟨[lockHeld], [taskIdle]⟩ := by
  refine ⟨rfl, by simp [lockManagerSnapshot, lockHeld, lockQueued]⟩

/-- C3 counterexample.  The claim says receiving `Create{name, ...}` when a
lock for `name` is already registered leaves the registry state unchanged.
It does not: `receive` unconditionally replaces the entry with a freshly
constructed lock (src lines 217-220), so a registered lock that was owned
and had a queued waiter comes out with `owner = false` and an empty queue. -/
theorem c3_create_not_idempotent :
    (receive [("a", lockBusyA)] msgCreateA LOCKED).1 ≠ [("a", lockBusyA)] ∧
    (mapGet (receive [("a", lockBusyA)] msgCreateA LOCKED).1 "a").map
        LockState.owner = some false ∧
    (mapGet (receive [("a", lockBusyA)] msgCreateA LOCKED).1 "a").map
        LockState.queue = some [] := by
  refine ⟨by decide, rfl, rfl⟩

/-- C4.  The claim says at most one context's `owner` flag is true for a
given shared flag at any instant, over `enter` and `tryDirect` alike.  The
code violates it through `tryDirect`: starting from a free flag, context A
`tryEnter`s and becomes owner (flag `LOCKED`, handler running); context B
then calls `tryDirect`, whose exchange returns `LOCKED`, yet the code still
sets `this.owner = true` and invokes B's handler with the real lock (src
lines 96-99) — leaving both contexts owners, both handlers running. -/
theorem c4_two_owners :
    (sysTryEnterA sys0).2 = [Event.handlerStarted 1] ∧
    (sysTryEnterA sys0).1.flag = LOCKED ∧
    (sysTryEnterA sys0).1.ctxA.owner = true ∧
    (sysTryEnterA sys0).1.ctxB.owner = false ∧
    (sysTryDirectB (sysTryEnterA sys0).1).2 =
      [DirectArg.nullRef, DirectArg.lockRef] ∧
    (sysTryDirectB (sysTryEnterA sys0).1).1.ctxA.owner = true ∧
    (sysTryDirectB (sysTryEnterA sys0).1).1.ctxB.owner = true := by
  refine ⟨rfl, rfl, rfl, rfl, rfl, rfl, rfl⟩

/-- C5.  The claim says a call to `enter` with an absent/null signal (the
default when `request` is called without a `signal` option) still proceeds
and settles normally.  It does not: after pushing the task and setting
`trying`, the executor evaluates `signal.addEventListener` on `null`
(src line 39) and throws a `TypeError`, so the returned promise rejects and
the deferred `tryEnter` is never scheduled — with the dead task left in the
queue. -/
theorem c5_enter_null_signal_throws (l : LockState) (hid : Nat) :
    enter l hid none =
      ({ l with queue := l.queue ++ [⟨hid, none, false, false⟩], trying := true },
       Except.error "TypeError: Cannot read properties of null") := rfl

/-- `Map.set` then `Map.get` of the same key finds the stored value. -/
theorem mapGet_mapSet_self (col : Collection) (k : String) (v : LockState) :
    mapGet (mapSet col k v) k = some v := by
  induction col with
  | nil => simp [mapGet, mapSet]
  | cons p rest ih =>
    obtain ⟨k0, v0⟩ := p
    by_cases h : k0 = k
    · simp [mapSet, mapGet, h]
    · simp [mapSet, mapGet, h, ih]

/-- Storing twice under the same key keeps only the second value. -/
theorem mapSet_mapSet_self (col : Collection) (k : String) (v w : LockState) :
    mapSet (mapSet col k v) k w = mapSet col k w := by
  induction col with
  | nil => simp [mapSet]
  | cons p rest ih =>
    obtain ⟨k0, v0⟩ := p
    by_cases h : k0 = k
    · simp [mapSet, h]
    · simp [mapSet, h, ih]

/-- C3 amended: receiving `Create` unconditionally replaces the registry
entry for the message's name with a freshly constructed lock (empty queue,
`owner = false`, `trying = false`) aliasing the message's buffer; hence
delivering the same `Create` twice yields the same registry state as
delivering it once, but an existing lock's local state is not preserved. -/
theorem c3_create_replace_idempotent (col : Collection) (msg : Message)
    (v : Nat) (hw : msg.webLocks = true) (hk : msg.kind = "create") :
    receive (receive col msg v).1 msg v = receive col msg v ∧
    mapGet (receive col msg v).1 msg.name =
      some (newLock msg.name msg.mode (some msg.buffer) 0 v) := by
  simp [receive, hw, hk, mapSet_mapSet_self, mapGet_mapSet_self]

/-- C3 amended, witnessed on a registry already holding an owned, queued
lock under the message's name. -/
theorem c3_witness :
    receive (receive [("a", lockBusyA)] msgCreateA LOCKED).1 msgCreateA LOCKED =
      receive [("a", lockBusyA)] msgCreateA LOCKED ∧
    mapGet (receive [("a", lockBusyA)] msgCreateA LOCKED).1 "a" =
      some (newLock "a" "exclusive" (some 5) 0 LOCKED) :=
  c3_create_replace_idempotent [("a", lockBusyA)] msgCreateA LOCKED rfl rfl

/-- C6: firing the abort listener for a still-queued (not `entered`) task
settles it exactly once with the abort error (and no handler invocation),
marks it `rejected`, and leaves it in the queue — same length, same entry at
its position (now flagged), every other entry untouched. -/
theorem c6_cancel_before_entry (l : LockState) (i : Nat) (t : Task)
    (sig : Signal) (hq : l.queue.get? i = some t) (hsig : t.signal = some sig)
    (hent : t.entered = false) :
    (fireAbort l i).2 =
      [Event.settledCancel t.handlerId ("AbortError: " ++ sig.reason)] ∧
    (fireAbort l i).1.queue.get? i =
      some { t with signal := some { sig with aborted := true },
                    rejected := true } ∧
    (fireAbort l i).1.queue.length = l.queue.length ∧
    (∀ j, j ≠ i → (fireAbort l i).1.queue.get? j = l.queue.get? j) ∧
    (∀ id, Event.handlerStarted id ∉ (fireAbort l i).2) := by
  simp only [fireAbort, hq, hsig, hent, Bool.false_eq_true, if_false]
  refine ⟨trivial, ?_, by simp, ?_, by intro id; simp⟩
  · rw [List.get?_set_eq, hq]; rfl
  · intro j hj
    exact List.get?_set_ne _ _ (Ne.symm hj)

/-- C6, witnessed on a lock with one queued waiter whose signal fires. -/
theorem c6_witness :
    (fireAbort lockQueuedPending 0).2 =
      [Event.settledCancel 1 ("AbortError: " ++ "r")] ∧
    (fireAbort lockQueuedPending 0).1.queue.get? 0 =
      some ⟨1, some ⟨true, "r"⟩, true, false⟩ ∧
    (fireAbort lockQueuedPending 0).1.queue.length = 1 :=
  ⟨(c6_cancel_before_entry lockQueuedPending 0 taskIdle sigIdle rfl rfl rfl).1,
   (c6_cancel_before_entry lockQueuedPending 0 taskIdle sigIdle rfl rfl rfl).2.1,
   (c6_cancel_before_entry lockQueuedPending 0 taskIdle sigIdle rfl rfl rfl).2.2.1⟩

/-- The events of a `tryEnter` run never mention a handler id that is not in
the processed queue: no invocation and no cancellation settlement for it. -/
theorem tryEnterGo_events_for (name mode : String) (b id : Nat)
    (q : List Task) :
    ∀ (ow tr : Bool) (fl : Nat), id ∉ q.map Task.handlerId →
      startEventsFor id (tryEnterGo name mode b ow tr fl q).2 = [] ∧
      cancelEventsFor id (tryEnterGo name mode b ow tr fl q).2 = [] := by
  induction q with
  | nil =>
    intro ow tr fl _
    simp [tryEnterGo, startEventsFor, cancelEventsFor]
  | cons t rest ih =>
    intro ow tr fl h
    rw [List.map_cons, List.mem_cons] at h
    push_neg at h
    obtain ⟨hne, hrest⟩ := h
    by_cases hfl : fl = LOCKED
    · simp [tryEnterGo, hfl, startEventsFor, cancelEventsFor]
    · cases hs : t.signal with
      | none => simp [tryEnterGo, hfl, hs, startEventsFor, cancelEventsFor]
      | some sig =>
        by_cases hab : sig.aborted = true
        · have hih := ih false false UNLOCKED hrest
          by_cases hrej : t.rejected = true
          · simpa [tryEnterGo, hfl, hs, hab, hrej, startEventsFor,
              cancelEventsFor, List.filter_append] using hih
          · simp only [Bool.not_eq_true] at hrej
            have hne2 : (t.handlerId == id) = false := by
              simp [Ne.symm hne]
            simpa [tryEnterGo, hfl, hs, hab, hrej, startEventsFor,
              cancelEventsFor, List.filter_append, hne2] using hih
        · simp only [Bool.not_eq_true] at hab
          have hne2 : (t.handlerId == id) = false := by
            simp [Ne.symm hne]
          simp [tryEnterGo, hfl, hs, hab, startEventsFor, cancelEventsFor, hne2]

/-- C7: dequeuing a task whose signal has already fired acquires and at once
releases the flag (the `leave` broadcast is emitted) without ever invoking
that task's handler; the task is settled with the abort error exactly once
— and not at all when the early-cancellation path already settled it
(`rejected` guard); and the run then continues on the remaining queue
exactly as a fresh `tryEnter` on it would. -/
theorem c7_cancel_at_entry (l : LockState) (t : Task) (rest : List Task)
    (sig : Signal) (hq : l.queue = t :: rest) (hs : t.signal = some sig)
    (hab : sig.aborted = true) (hfl : l.flag ≠ LOCKED)
    (hid : t.handlerId ∉ rest.map Task.handlerId) :
    Event.leaveMsg l.name ∈ (tryEnter l).2 ∧
    startEventsFor t.handlerId (tryEnter l).2 = [] ∧
    cancelEventsFor t.handlerId (tryEnter l).2 =
      (if t.rejected then []
       else [Event.settledCancel t.handlerId ("AbortError: " ++ sig.reason)]) ∧
    (tryEnter l).1 =
      (tryEnter { l with queue := rest, owner := false, trying := false,
                         flag := UNLOCKED }).1 := by
  have hgo := tryEnterGo_events_for l.name l.mode l.bufferId t.handlerId rest
    false false UNLOCKED hid
  have hself : (t.handlerId == t.handlerId) = true := by simp
  constructor
  · simp [tryEnter, hq, tryEnterGo, hfl, hs, hab]
  constructor
  · simp [tryEnter, hq, tryEnterGo, hfl, hs, hab, startEventsFor,
      List.filter_append] at hgo ⊢
    rcases hgo with ⟨h1, _⟩
    by_cases hrej : t.rejected = true
    · simpa [hrej, startEventsFor] using h1
    · simp only [Bool.not_eq_true] at hrej
      simpa [hrej, startEventsFor] using h1
  constructor
  · by_cases hrej : t.rejected = true
    · simp [tryEnter, hq, tryEnterGo, hfl, hs, hab, hrej, cancelEventsFor,
        List.filter_append] at hgo ⊢
      exact hgo.2
    · simp only [Bool.not_eq_true] at hrej
      simp [tryEnter, hq, tryEnterGo, hfl, hs, hab, hrej, cancelEventsFor,
        List.filter_append, hself] at hgo ⊢
      exact hgo.2
  · simp [tryEnter, hq, tryEnterGo, hfl, hs, hab]

/-- C7, witnessed: the head waiter's signal has fired, one live waiter is
behind it; the flag is released (broadcast emitted), the fired task settles
with the abort error, its handler never starts, and the follower is served
as a fresh `tryEnter` on the remaining queue would serve it. -/
theorem c7_witness :
    Event.leaveMsg "x" ∈ (tryEnter lockAbortedHead).2 ∧
    startEventsFor 1 (tryEnter lockAbortedHead).2 = [] ∧
    cancelEventsFor 1 (tryEnter lockAbortedHead).2 =
      [Event.settledCancel 1 ("AbortError: " ++ "r")] ∧
    (tryEnter lockAbortedHead).1 =
      (tryEnter ⟨"x", "exclusive", 0, [taskNext], false, false, UNLOCKED⟩).1 :=
  ⟨(c7_cancel_at_entry lockAbortedHead taskFired [taskNext] sigFired rfl rfl
      rfl (by decide) (by decide)).1,
   (c7_cancel_at_entry lockAbortedHead taskFired [taskNext] sigFired rfl rfl
      rfl (by decide) (by decide)).2.1,
   (c7_cancel_at_entry lockAbortedHead taskFired [taskNext] sigFired rfl rfl
      rfl (by decide) (by decide)).2.2.1,
   (c7_cancel_at_entry lockAbortedHead taskFired [taskNext] sigFired rfl rfl
      rfl (by decide) (by decide)).2.2.2⟩

/-- C8: requesting a name whose registered lock has a different mode fails
with the mode-conflict error and leaves the collection — the existing lock
included — completely unchanged; requesting with the matching mode reuses
the existing lock: no creation broadcast, and the request proceeds by
entering that very lock. -/
theorem c8_mode_immutable (col : Collection) (fb : Nat) (name : String)
    (opts : ReqOptions) (hid : Nat) (lock : LockState) (sig : Signal)
    (hname : name.toList.head? ≠ some '-') (hsteal : opts.steal = false)
    (hifa : opts.ifAvailable = false) (hget : mapGet col name = some lock) :
    (lock.mode ≠ opts.mode →
      request col fb name opts hid =
        (col, [], Except.error "The mode can`t be changed")) ∧
    (lock.mode = opts.mode → opts.signal = some sig → sig.aborted = false →
      request col fb name opts hid =
        (mapSet col name (enter lock hid (some sig)).1, [],
         Except.ok ReqOutcome.enqueued)) := by
  have hname2 : name.data.head? ≠ some '-' := hname
  constructor
  · intro hmode
    simp [request, hname2, hsteal, hifa, hget, hmode]
  · intro hmode hsig hab
    simp [request, hname2, hsteal, hifa, hget, hmode, requestDispatch, hsig,
      hab, enterOrDirect, enter]

/-- C8, witnessed: a registry holding an exclusive lock under `"x"` rejects
a `shared`-mode request unchanged, and serves a matching-mode request by
enqueuing on the existing lock. -/
theorem c8_witness :
    request [("x", lockQueuedPending)] 7 "x" optsShared 9 =
      ([("x", lockQueuedPending)], [],
       Except.error "The mode can`t be changed") ∧
    request [("x", lockQueuedPending)] 7 "x" optsLive 9 =
      ([("x", (enter lockQueuedPending 9 (some sigIdle)).1)], [],
       Except.ok ReqOutcome.enqueued) :=
  ⟨(c8_mode_immutable [("x", lockQueuedPending)] 7 "x" optsShared 9
      lockQueuedPending sigIdle (by decide) rfl rfl rfl).1 (by decide),
   (c8_mode_immutable [("x", lockQueuedPending)] 7 "x" optsLive 9
      lockQueuedPending sigIdle (by decide) rfl rfl rfl).2 rfl rfl rfl⟩

/-- C9: `leave` is a no-op when `owner` is false; otherwise it stores
`UNLOCKED`, clears `owner`, broadcasts the `leave` message and at once runs
`tryEnter` on the remaining queue; and when an entered task's handler
finishes — with a value or with a thrown error — `leave` runs first and the
task settles afterwards, the thrown error propagated verbatim. -/
theorem c9_release_protocol (l : LockState) (id : Nat) (e : String)
    (v : Nat) :
    (l.owner = false → leave l = (l, [])) ∧
    (l.owner = true →
      leave l =
        ((tryEnter { l with flag := UNLOCKED, owner := false }).1,
         Event.leaveMsg l.name ::
           (tryEnter { l with flag := UNLOCKED, owner := false }).2)) ∧
    (l.owner = true →
      (handlerSettled l id (Except.error e)).2 =
        (leave l).2 ++ [Event.rejectedWith id e] ∧
      (handlerSettled l id (Except.error e)).2.head? =
        some (Event.leaveMsg l.name) ∧
      (handlerSettled l id (Except.ok v)).2 =
        (leave l).2 ++ [Event.resolved id v]) := by
  refine ⟨fun h => by simp [leave, h], fun h => by simp [leave, h], fun h => ?_⟩
  refine ⟨by simp [handlerSettled], ?_, by simp [handlerSettled]⟩
  simp [handlerSettled, leave, h]

/-- C9, witnessed on a held lock with no waiters and a handler that threw. -/
theorem c9_witness :
    (lockFree.owner = false → leave lockFree = (lockFree, [])) ∧
    leave lockHeld =
      ((tryEnter { lockHeld with flag := UNLOCKED, owner := false }).1,
       Event.leaveMsg "x" ::
         (tryEnter { lockHeld with flag := UNLOCKED, owner := false }).2) ∧
    (handlerSettled lockHeld 1 (Except.error "boom")).2 =
      (leave lockHeld).2 ++ [Event.rejectedWith 1 "boom"] ∧
    (handlerSettled lockHeld 1 (Except.error "boom")).2.head? =
      some (Event.leaveMsg "x") :=
  ⟨(c9_release_protocol lockFree 1 "boom" 0).1,
   (c9_release_protocol lockHeld 1 "boom" 0).2.1 rfl,
   ((c9_release_protocol lockHeld 1 "boom" 0).2.2 rfl).1,
   ((c9_release_protocol lockHeld 1 "boom" 0).2.2 rfl).2.1⟩

/-- C10: a `request` whose signal is already aborted (with `steal` and
`ifAvailable` at their defaults and a valid name) rejects with the abort
error and never enqueues a task; when no lock existed for the name, the
fresh lock — with an empty queue — is still registered and its creation
broadcast before the rejection; when a matching-mode lock existed, the
collection is left entirely unchanged. -/
theorem c10_aborted_signal (col : Collection) (fb : Nat) (name : String)
    (opts : ReqOptions) (hid : Nat) (sig : Signal)
    (hname : name.toList.head? ≠ some '-') (hsteal : opts.steal = false)
    (hifa : opts.ifAvailable = false) (hsig : opts.signal = some sig)
    (hab : sig.aborted = true) :
    (mapGet col name = none →
      request col fb name opts hid =
        (mapSet col name (newLock name opts.mode none fb 0),
         [Event.createMsg name opts.mode fb],
         Except.error ("AbortError: " ++ sig.reason)) ∧
      (newLock name opts.mode none fb 0).queue = []) ∧
    (∀ lock, mapGet col name = some lock → lock.mode = opts.mode →
      request col fb name opts hid =
        (col, [], Except.error ("AbortError: " ++ sig.reason))) := by
  have hname2 : name.data.head? ≠ some '-' := hname
  constructor
  · intro hnone
    refine ⟨?_, rfl⟩
    simp [request, hname2, hsteal, hifa, hnone, requestDispatch, hsig, hab]
  · intro lock hget hmode
    simp [request, hname2, hsteal, hifa, hget, hmode, requestDispatch, hsig,
      hab]

/-- C10, witnessed: an aborted-signal request on an empty registry still
creates, registers and broadcasts the lock, then rejects; on a registry
already holding the lock it rejects leaving everything unchanged. -/
theorem c10_witness :
    request [] 7 "x" optsAborted 9 =
      ([("x", newLock "x" "exclusive" none 7 0)],
       [Event.createMsg "x" "exclusive" 7],
       Except.error ("AbortError: " ++ "r")) ∧
    (newLock "x" "exclusive" none 7 0).queue = [] ∧
    request [("x", lockQueuedPending)] 7 "x" optsAborted 9 =
      ([("x", lockQueuedPending)], [],
       Except.error ("AbortError: " ++ "r")) :=
  ⟨((c10_aborted_signal [] 7 "x" optsAborted 9 sigFired (by decide) rfl rfl
      rfl rfl).1 rfl).1,
   ((c10_aborted_signal [] 7 "x" optsAborted 9 sigFired (by decide) rfl rfl
      rfl rfl).1 rfl).2,
   (c10_aborted_signal [("x", lockQueuedPending)] 7 "x" optsAborted 9
      sigFired (by decide) rfl rfl rfl rfl).2 lockQueuedPending rfl rfl⟩

end WebLocks
